import Mathlib

/-!
Verification of the Upstream Adapter & Resilience Layer of the ExplorerToken
backend: the Etherscan client (request/response validation and normalization,
transaction aggregation), the dual-backend cache (external shared store with a
local in-process fallback), and the per-client token-bucket rate limiter.

Conventions of the shallow embedding:
* JavaScript numbers produced by parseInt are modelled as `Option Int`
  (`none` models NaN); machine times are naturals (milliseconds) or rationals.
* JavaScript float arithmetic of the token bucket is modelled over `ℚ`.
* A JS value that may be `null`/`undefined` is modelled as an `Option`, or by
  the `JVal.jnull` constructor where the null itself is a first-class value.
* A JS async function that may reject is modelled as `Except Unit`/`Except e`;
  a try/catch block is a `match` on that `Except`.
* JSON.stringify/JSON.parse round-tripping of cached DTOs is modelled as the
  identity on `JVal` (the external store holds the decoded value); the string
  produced by JSON.stringify is never the JS value null, which is what the
  code's null checks test for.
-/

/-- Decidable equality of run outcomes, so concrete runs can be checked by
evaluation. -/
instance {ε α : Type} [DecidableEq ε] [DecidableEq α] : DecidableEq (Except ε α) :=
  fun x y =>
    match x, y with
    | Except.ok a, Except.ok b =>
      if h : a = b then Decidable.isTrue (by subst h; rfl)
      else Decidable.isFalse (by simp [h])
    | Except.error a, Except.error b =>
      if h : a = b then Decidable.isTrue (by subst h; rfl)
      else Decidable.isFalse (by simp [h])
    | Except.ok _, Except.error _ => Decidable.isFalse (by simp)
    | Except.error _, Except.ok _ => Decidable.isFalse (by simp)

-- ============================================================================
-- JavaScript parseInt (used by the normalizers in etherscanClient.ts)
-- ============================================================================

/-- Value of a character as a digit in the given radix, if it is one. -/
def digitVal (radix : Nat) (c : Char) : Option Nat :=
  if '0' ≤ c ∧ c ≤ '9' then
    let v := c.toNat - '0'.toNat
    if v < radix then some v else none
  else if 'a' ≤ c ∧ c ≤ 'z' then
    let v := c.toNat - 'a'.toNat + 10
    if v < radix then some v else none
  else if 'A' ≤ c ∧ c ≤ 'Z' then
    let v := c.toNat - 'A'.toNat + 10
    if v < radix then some v else none
  else none

/-- Longest prefix of digit values valid in the radix (parseInt stops at the
first non-digit). -/
def takeDigits (radix : Nat) : List Char → List Nat
  | [] => []
  | c :: cs =>
    match digitVal radix c with
    | some d => d :: takeDigits radix cs
    | none => []

/-- Value of a digit list read most-significant first. -/
def digitsToNat (radix : Nat) (ds : List Nat) : Nat :=
  ds.foldl (fun acc d => acc * radix + d) 0

/-- Characters skipped by parseInt before the number. -/
def isSpaceChar (c : Char) : Bool :=
  c = ' ' ∨ c = '\t' ∨ c = '\n' ∨ c = '\r'

/-- JavaScript parseInt(s, radix): skip whitespace, optional sign, optional
0x/0X prefix when the radix is 16, then read the longest digit prefix.
Returns `none` for NaN (no digits); a trailing non-digit suffix is silently
dropped. -/
def parseIntJS (radix : Nat) (s : String) : Option Int :=
  let cs := s.data.dropWhile isSpaceChar
  let signAndRest : Int × List Char :=
    match cs with
    | '-' :: rest => (-1, rest)
    | '+' :: rest => (1, rest)
    | _ => (1, cs)
  let cs1 :=
    if radix = 16 then
      match signAndRest.2 with
      | '0' :: 'x' :: rest => rest
      | '0' :: 'X' :: rest => rest
      | _ => signAndRest.2
    else signAndRest.2
  let ds := takeDigits radix cs1
  if ds = [] then none
  else some (signAndRest.1 * (digitsToNat radix ds : Nat))

-- ============================================================================
-- Etherscan client: envelope validation (makeRequest)
-- ============================================================================

/-- Allow-list of upstream messages that are benign even with status "0"
(etherscanClient.ts, NO_ERROR_MESSAGES). -/
def NO_ERROR_MESSAGES : List String := ["No records found", "No transactions found"]

/-- Error kinds an EtherscanError can carry; the TypeScript class encodes the
kind in its message prefix, here each kind is a constructor and the upstream
message is carried where the code interpolates it. -/
inductive EthErr where
  | invalidResponseFormat
  | apiError (message : String)
  | invalidResultFormat
  | networkError (message : String)
deriving DecidableEq

/-- Outcome of the HTTP exchange as seen by makeRequest after axios and the
envelope safeParse: a transport failure, a body that does not match the
generic envelope schema, or a parsed envelope whose result payload has type
ρ. -/
inductive UpstreamResp (ρ : Type) where
  | networkFailure (message : String)
  | malformed
  | envelope (status message : String) (result : ρ)

/-- Shallow embedding of makeRequest (etherscanClient.ts): envelope shape
check, then the status-"0" allow-list check, then the operation-specific
result schema (the `schema` parameter, `none` modelling a safeParse
failure). -/
def makeRequest {ρ T : Type} (resp : UpstreamResp ρ) (schema : ρ → Option T) :
    Except EthErr T :=
  match resp with
  | .networkFailure m => .error (.networkError m)
  | .malformed => .error .invalidResponseFormat
  | .envelope status message result =>
    if status = "0" ∧ message ∉ NO_ERROR_MESSAGES then
      .error (.apiError message)
    else
      match schema result with
      | some t => .ok t
      | none => .error .invalidResultFormat

-- ============================================================================
-- Etherscan client: transfer normalization (getTokenTransfers)
-- ============================================================================

/-- Row of the upstream tokentx result after zod validation
(TokenTransferSchema): every numeric field is still a string. -/
structure RawTransfer where
  blockNumber : String
  timeStamp : String
  hash : String
  fromAddr : String
  toAddr : String
  contractAddress : String
  value : String
  tokenName : Option String
  tokenSymbol : Option String
  tokenDecimal : Option String
deriving DecidableEq

/-- NormalizedTransfer DTO. Integer fields hold `none` when JS parseInt
produced NaN; tokenDecimal is doubly optional: outer `none` models the
undefined produced when the raw field is absent or falsy. -/
structure NormalizedTransfer where
  hash : String
  blockNumber : Option Int
  timeStamp : Option Int
  fromAddr : String
  toAddr : String
  contractAddress : String
  valueRaw : String
  tokenSymbol : Option String
  tokenName : Option String
  tokenDecimal : Option (Option Int)
deriving DecidableEq

/-- Per-row normalization in getTokenTransfers: parseInt base 10 on
blockNumber and timeStamp; tokenDecimal is converted only when the raw string
is truthy (non-empty), exactly as the conditional expression in the source. -/
def normalizeTransfer (tx : RawTransfer) : NormalizedTransfer :=
  { hash := tx.hash
    blockNumber := parseIntJS 10 tx.blockNumber
    timeStamp := parseIntJS 10 tx.timeStamp
    fromAddr := tx.fromAddr
    toAddr := tx.toAddr
    contractAddress := tx.contractAddress
    valueRaw := tx.value
    tokenSymbol := tx.tokenSymbol
    tokenName := tx.tokenName
    tokenDecimal :=
      match tx.tokenDecimal with
      | some s => if s ≠ "" then some (parseIntJS 10 s) else none
      | none => none }

/-- getTokenTransfers after the request parameters are built: validate the
envelope and result rows through makeRequest, then map the normalizer over
the rows. -/
def getTokenTransfersPure (resp : UpstreamResp (List RawTransfer)) :
    Except EthErr (List NormalizedTransfer) :=
  (makeRequest resp some).map (fun rows => rows.map normalizeTransfer)

-- ============================================================================
-- Etherscan client: transaction aggregation (getTxDetails)
-- ============================================================================

/-- Result of eth_getTransactionByHash after zod validation
(TransactionSchema); blockNumber and to are nullable. -/
structure TxData where
  hash : String
  blockNumber : Option String
  fromAddr : String
  toAddr : Option String
  value : String
  input : String
deriving DecidableEq

/-- Log entry inside a transaction receipt. -/
structure ReceiptLog where
  address : String
  topics : List String
  data : String
deriving DecidableEq

/-- Result of eth_getTransactionReceipt after zod validation
(TransactionReceiptSchema); every field is optional. -/
structure ReceiptData where
  gasUsed : Option String
  effectiveGasPrice : Option String
  logs : Option (List ReceiptLog)
deriving DecidableEq

/-- Result of the getstatus action after zod validation
(TransactionStatusSchema). -/
structure TxStatusData where
  isError : String
  errDescription : Option String
deriving DecidableEq

/-- Derived execution status of a normalized transaction. -/
inductive TxStatus where
  | success
  | fail
  | pending
deriving DecidableEq

/-- NormalizedTx DTO. The blockNumber field's outer Option models the JS
null, the inner Option the NaN a failed parseInt would produce; status is
absent when the code assigns none of the three literals. -/
structure NormalizedTx where
  hash : String
  blockNumber : Option (Option Int)
  fromAddr : String
  toAddr : Option String
  valueWei : String
  input : String
  status : Option TxStatus
  receipt : Option ReceiptData
deriving DecidableEq

/-- Pure tail of getTxDetails: given the three sub-call results, derive the
status (strict null test on blockNumber, then isError "0" / "1", otherwise
the variable keeps its undefined initializer) and assemble the DTO.
blockNumber is parsed base 16 behind a JS truthiness test, and the receipt
object is copied only when the receipt result was non-null. -/
def normalizeTx (txData : TxData) (receiptData : Option ReceiptData)
    (statusData : TxStatusData) : NormalizedTx :=
  let status : Option TxStatus :=
    if txData.blockNumber = none then some .pending
    else if statusData.isError = "0" then some .success
    else if statusData.isError = "1" then some .fail
    else none
  { hash := txData.hash
    blockNumber :=
      match txData.blockNumber with
      | some s => if s ≠ "" then some (parseIntJS 16 s) else none
      | none => none
    fromAddr := txData.fromAddr
    toAddr := txData.toAddr
    valueWei := txData.value
    input := txData.input
    status := status
    receipt := receiptData }

/-- getTxDetails as a function of the outcomes of its three concurrent
sub-calls: the Promise.all join is all-or-nothing, so any sub-call failure
makes the whole operation fail and no partial DTO is built. -/
def getTxDetails (tx : Except EthErr TxData)
    (rc : Except EthErr (Option ReceiptData))
    (stt : Except EthErr TxStatusData) : Except EthErr NormalizedTx := do
  let t ← tx
  let r ← rc
  let s ← stt
  pure (normalizeTx t r s)

-- ============================================================================
-- Feature detection and the top-holders fallback resolver
-- ============================================================================

/-- Structured failure kinds of the generic upstream error (the EtherscanError
class); http carries the HTTP status code of a non-2xx response. -/
inductive UpstreamFailure where
  | http (code : Nat)
  | network (message : String)
  | invalidResponseFormat
  | apiError (message : String)
  | invalidResultFormat
deriving DecidableEq

/-- Error taxonomy of the richer client: a generic upstream error
(EtherscanError) or the distinguished ProviderFeatureUnavailableError. -/
inductive ClientError where
  | upstream (f : UpstreamFailure)
  | featureUnavailable (message : String)
deriving DecidableEq

/-- Outcome of one upstream HTTP exchange including the HTTP status code
dimension: no response at all, an HTTP error status, or a 2xx body. -/
inductive UpstreamOutcome (ρ : Type) where
  | netError (message : String)
  | httpError (code : Nat)
  | body (resp : UpstreamResp ρ)

/-- Whether the pattern is a leading segment of the text. -/
def leadsWith : List Char → List Char → Bool
  | [], _ => true
  | _ :: _, [] => false
  | p :: ps, h :: hs => p == h && leadsWith ps hs

/-- Whether the pattern occurs somewhere in the text. -/
def hasSub (pat : List Char) : List Char → Bool
  | [] => leadsWith pat []
  | h :: hs => leadsWith pat (h :: hs) || hasSub pat hs

/-- Whether the phrase occurs in the string. -/
def containsPhrase (phrase s : String) : Bool :=
  hasSub phrase.data s.data

/-- Modelled from the spec: the client file exporting
ProviderFeatureUnavailableError and the holders operations is absent from the
checked-in sources (only its tests and its route callers are present); per
the spec, a success-envelope message indicating a plan/feature restriction is
recognized here as containing the plan-restriction phrase. -/
def planRestricted (message : String) : Bool :=
  containsPhrase "not available" message

/-- Modelled from the spec: request validation of the richer client (absent
from the checked-in sources). HTTP status 402 or 403, or a status-"0"
envelope whose message indicates a plan/feature restriction, raises the
distinguished featureUnavailable kind; all other failures raise the generic
upstream kind, and the envelope/status/result checks mirror makeRequest. -/
def makeRequestFU {ρ T : Type} (out : UpstreamOutcome ρ) (schema : ρ → Option T) :
    Except ClientError T :=
  match out with
  | .netError m => .error (.upstream (.network m))
  | .httpError code =>
    if code = 402 ∨ code = 403 then .error (.featureUnavailable "Feature not available")
    else .error (.upstream (.http code))
  | .body .malformed => .error (.upstream .invalidResponseFormat)
  | .body (.networkFailure m) => .error (.upstream (.network m))
  | .body (.envelope status message result) =>
    if status = "0" ∧ planRestricted message then
      .error (.featureUnavailable message)
    else if status = "0" ∧ message ∉ NO_ERROR_MESSAGES then
      .error (.upstream (.apiError message))
    else
      match schema result with
      | some t => .ok t
      | none => .error (.upstream .invalidResultFormat)

/-- Primary action name of the top-holders capability (from the client's
tests). -/
def PRIMARY_HOLDERS_ACTION : String := "tokenholderlist"

/-- Secondary (fallback) action name of the top-holders capability. -/
def SECONDARY_HOLDERS_ACTION : String := "topholders"

/-- Modelled from the spec: a message indicating the action name does not
exist on this deployment ("Invalid action" in the upstream's casing; the
phrase is matched without its first letter so both casings are caught). -/
def invalidActionMessage (message : String) : Bool :=
  containsPhrase "nvalid action" message

/-- Modelled from the spec: the failure signatures that trigger the single
fallback to the secondary action name: HTTP 404, or a success-envelope
message indicating an invalid action. Every other kind, in particular a
featureUnavailable, must not trigger the fallback. -/
def shouldFallback : ClientError → Bool
  | .upstream (.http code) => code = 404
  | .upstream (.apiError message) => invalidActionMessage message
  | _ => false

/-- Modelled from the spec: the top-holders endpoint resolver (absent from
the checked-in sources). The upstream is an oracle from the action name to
the exchange outcome — every other request parameter is held fixed, so both
attempts carry equivalent parameters. The returned list records the actions
invoked, in order. -/
def getTopTokenHoldersResolved {ρ T : Type} (upstream : String → UpstreamOutcome ρ)
    (schema : ρ → Option T) : Except ClientError T × List String :=
  match makeRequestFU (upstream PRIMARY_HOLDERS_ACTION) schema with
  | .ok v => (.ok v, [PRIMARY_HOLDERS_ACTION])
  | .error e =>
    if shouldFallback e then
      (makeRequestFU (upstream SECONDARY_HOLDERS_ACTION) schema,
        [PRIMARY_HOLDERS_ACTION, SECONDARY_HOLDERS_ACTION])
    else
      (.error e, [PRIMARY_HOLDERS_ACTION])

-- ============================================================================
-- Dual-backend cache (cache.ts over redis.ts)
-- ============================================================================

/-- JSON-serializable cached value; jnull is the JS null, which the cache can
store like any other DTO. -/
inductive JVal where
  | jnull
  | jbool (b : Bool)
  | jnum (n : Int)
  | jstr (s : String)
deriving DecidableEq

/-- One backend store: association list from key to value and absolute expiry
time (seconds); the first binding for a key wins. -/
abbrev Store := List (String × JVal × Nat)

/-- Remove every binding of a key. -/
def eraseKey (store : Store) (key : String) : Store :=
  store.filter (fun p => p.1 != key)

/-- Store a binding, shadowing any previous one. -/
def putKey (store : Store) (key : String) (v : JVal) (expiresAt : Nat) : Store :=
  (key, v, expiresAt) :: eraseKey store key

/-- Unexpired value of a key, if any. -/
def lookupLive (store : Store) (now : Nat) (key : String) : Option JVal :=
  match store.lookup key with
  | some (v, expiresAt) => if now < expiresAt then some v else none
  | none => none

/-- State of the cache module: the redisAvailable flag set by initCache, the
external shared store, and the local in-process node-cache store. -/
structure CacheState where
  redisAvailable : Bool
  redisStore : Store
  localStore : Store
deriving DecidableEq

/-- Cache state before any write, with the given connection outcome. -/
def initialCache (avail : Bool) : CacheState :=
  { redisAvailable := avail, redisStore := [], localStore := [] }

/-- Local read with the JS coalescing of the source: a node-cache miss (or an
expired entry) surfaces as the null return value, a stored value — null
included — is returned as is. -/
def localGetOrNull (store : Store) (now : Nat) (key : String) : JVal :=
  match lookupLive store now key with
  | some v => v
  | none => JVal.jnull

/-- Shallow embedding of cache.get. The extThrows flag is the environment's
choice of whether the external-store call throws on this invocation; the
try/catch of the source is the match on the Except: a throw is logged and
control falls through to the local store. A hit on the external store returns
the parse of the stored serialization (round-trip modelled as identity). -/
def cacheGetE (st : CacheState) (now : Nat) (key : String) (extThrows : Bool) :
    Except Unit JVal :=
  let viaRedis : Except Unit (Option JVal) :=
    if st.redisAvailable then
      if extThrows then Except.error () else Except.ok (lookupLive st.redisStore now key)
    else Except.ok none
  match viaRedis with
  | Except.ok (some v) => Except.ok v
  | Except.ok none => Except.ok (localGetOrNull st.localStore now key)
  | Except.error _ => Except.ok (localGetOrNull st.localStore now key)

/-- Value returned by cache.get (total: the catch guarantees the error arm of
cacheGetE is never taken). -/
def cacheGet (st : CacheState) (now : Nat) (key : String) (extThrows : Bool) : JVal :=
  match cacheGetE st now key extThrows with
  | Except.ok v => v
  | Except.error _ => JVal.jnull

/-- State after cache.set: the external write is attempted only when
connected and is swallowed when it throws; the local store is always
written. ttlSec defaults to the configured CACHE_DEFAULT_TTL. -/
def cacheSetSt (st : CacheState) (now : Nat) (key : String) (v : JVal)
    (ttlSec : Option Nat) (defaultTtl : Nat) (extThrows : Bool) : CacheState :=
  let ttl := ttlSec.getD defaultTtl
  { st with
    redisStore :=
      if st.redisAvailable && !extThrows then putKey st.redisStore key v (now + ttl)
      else st.redisStore
    localStore := putKey st.localStore key v (now + ttl) }

/-- Shallow embedding of cache.set as the possibly-rejecting async function:
the try/catch around the external write keeps the operation itself from
rejecting. -/
def cacheSetE (st : CacheState) (now : Nat) (key : String) (v : JVal)
    (ttlSec : Option Nat) (defaultTtl : Nat) (extThrows : Bool) :
    Except Unit CacheState :=
  let extWrite : Except Unit Unit :=
    if st.redisAvailable then
      if extThrows then Except.error () else Except.ok ()
    else Except.ok ()
  match extWrite with
  | Except.ok _ => Except.ok (cacheSetSt st now key v ttlSec defaultTtl extThrows)
  | Except.error _ => Except.ok (cacheSetSt st now key v ttlSec defaultTtl extThrows)

/-- State after cache.del: external delete attempted and swallowed on throw,
local delete always performed. -/
def cacheDelSt (st : CacheState) (key : String) (extThrows : Bool) : CacheState :=
  { st with
    redisStore :=
      if st.redisAvailable && !extThrows then eraseKey st.redisStore key
      else st.redisStore
    localStore := eraseKey st.localStore key }

/-- Shallow embedding of cache.del as the possibly-rejecting async function. -/
def cacheDelE (st : CacheState) (key : String) (extThrows : Bool) :
    Except Unit CacheState :=
  let extDel : Except Unit Unit :=
    if st.redisAvailable then
      if extThrows then Except.error () else Except.ok ()
    else Except.ok ()
  match extDel with
  | Except.ok _ => Except.ok (cacheDelSt st key extThrows)
  | Except.error _ => Except.ok (cacheDelSt st key extThrows)

/-- State after cache.flushAll: external flush attempted and swallowed on
throw, local store always cleared. -/
def cacheFlushSt (st : CacheState) (extThrows : Bool) : CacheState :=
  { st with
    redisStore :=
      if st.redisAvailable && !extThrows then [] else st.redisStore
    localStore := [] }

/-- Shallow embedding of cache.flushAll as the possibly-rejecting async
function. -/
def cacheFlushE (st : CacheState) (extThrows : Bool) : Except Unit CacheState :=
  let extFlush : Except Unit Unit :=
    if st.redisAvailable then
      if extThrows then Except.error () else Except.ok ()
    else Except.ok ()
  match extFlush with
  | Except.ok _ => Except.ok (cacheFlushSt st extThrows)
  | Except.error _ => Except.ok (cacheFlushSt st extThrows)

-- ============================================================================
-- Token-bucket rate limiter (middleware/rateLimiters.ts)
-- ============================================================================

/-- Per-client bucket: fractional token count and the timestamp (ms) of the
last refill. JS float arithmetic is modelled over the rationals. -/
structure TokenBucket where
  tokens : ℚ
  lastRefill : ℚ
deriving DecidableEq

/-- Refill rate in tokens per second: MAX_TOKENS / (WINDOW_MS / 1000) with
WINDOW_MS = 60000. -/
def REFILL_RATE (maxTokens : ℚ) : ℚ := maxTokens / (60000 / 1000)

/-- refillBucket: continuous refill from the elapsed wall-clock time, clamped
at the burst capacity. -/
def refillBucket (maxTokens : ℚ) (b : TokenBucket) (now : ℚ) : TokenBucket :=
  let timePassed := (now - b.lastRefill) / 1000
  let tokensToAdd := timePassed * REFILL_RATE maxTokens
  { tokens := min maxTokens (b.tokens + tokensToAdd), lastRefill := now }

/-- One admission check of the rateLimit middleware: refill, then admit and
consume one token when at least one is available, else reject. Returns the
admission decision and the updated bucket. -/
def rateLimitStep (maxTokens : ℚ) (b : TokenBucket) (now : ℚ) : Bool × TokenBucket :=
  let b1 := refillBucket maxTokens b now
  if 1 ≤ b1.tokens then (true, { b1 with tokens := b1.tokens - 1 })
  else (false, b1)

/-- Bucket created lazily on an identity's first request. -/
def freshBucket (maxTokens : ℚ) (now : ℚ) : TokenBucket :=
  { tokens := maxTokens, lastRefill := now }

/-- k admission checks in a row, all at the same instant; returns how many
were admitted and the final bucket. -/
def instantChecksCount (maxTokens : ℚ) (now : ℚ) :
    Nat → TokenBucket → Nat × TokenBucket
  | 0, b => (0, b)
  | Nat.succ k, b =>
    let r := rateLimitStep maxTokens b now
    let rest := instantChecksCount maxTokens now k r.2
    ((if r.1 then 1 else 0) + rest.1, rest.2)

/-- Bucket after an arbitrary sequence of admission checks at the given
times. -/
def runChecks (maxTokens : ℚ) (b : TokenBucket) (ts : List ℚ) : TokenBucket :=
  ts.foldl (fun b t => (rateLimitStep maxTokens b t).2) b

-- ============================================================================
-- Helper lemmas about stores and the cache operations
-- ============================================================================

theorem lookup_putKey_self (store : Store) (key : String) (v : JVal) (e : Nat) :
    (putKey store key v e).lookup key = some (v, e) := by
  simp [putKey, List.lookup]

theorem lookup_eraseKey (store : Store) (key k : String) :
    (eraseKey store key).lookup k = if k = key then none else store.lookup k := by
  induction store with
  | nil => simp [eraseKey]
  | cons p rest ih =>
    rcases p with ⟨k1, ve⟩
    by_cases h1 : k1 = key
    · have hdrop : eraseKey ((k1, ve) :: rest) key = eraseKey rest key := by
        simp [eraseKey, List.filter, h1]
      rw [hdrop, ih]
      by_cases h2 : k = key
      · simp [h2]
      · have hne : (k == k1) = false := by simp [h1, h2]
        simp [h2, List.lookup, hne]
    · have hbne : (k1 != key) = true := by simp [h1]
      have hkeep : eraseKey ((k1, ve) :: rest) key = (k1, ve) :: eraseKey rest key := by
        simp [eraseKey, List.filter, hbne]
      rw [hkeep]
      by_cases h2 : k = k1
      · subst h2
        have hkne : ¬ k = key := h1
        simp [List.lookup, hkne]
      · have hne : (k == k1) = false := by simp [h2]
        simp [List.lookup, hne, ih]

theorem lookup_putKey_other (store : Store) (key k : String) (v : JVal) (e : Nat)
    (h : k ≠ key) : (putKey store key v e).lookup k = store.lookup k := by
  have hne : (k == key) = false := by simp [h]
  simp [putKey, List.lookup, hne, lookup_eraseKey, h]

theorem lookupLive_putKey_self (store : Store) (now : Nat) (key : String) (v : JVal)
    (e : Nat) : lookupLive (putKey store key v e) now key =
      if now < e then some v else none := by
  simp [lookupLive, lookup_putKey_self]

theorem lookupLive_putKey_other (store : Store) (now : Nat) (key k : String) (v : JVal)
    (e : Nat) (h : k ≠ key) :
    lookupLive (putKey store key v e) now k = lookupLive store now k := by
  simp [lookupLive, lookup_putKey_other store key k v e h]

theorem lookupLive_eraseKey_self (store : Store) (now : Nat) (key : String) :
    lookupLive (eraseKey store key) now key = none := by
  simp [lookupLive, lookup_eraseKey]

theorem lookupLive_eraseKey_other (store : Store) (now : Nat) (key k : String)
    (h : k ≠ key) :
    lookupLive (eraseKey store key) now k = lookupLive store now k := by
  simp [lookupLive, lookup_eraseKey, h]

theorem cacheGetE_ok (st : CacheState) (now : Nat) (key : String) (e : Bool) :
    cacheGetE st now key e = Except.ok (cacheGet st now key e) := by
  cases h1 : st.redisAvailable <;> cases h2 : e <;>
    cases h3 : lookupLive st.redisStore now key <;>
      simp [cacheGet, cacheGetE, h1, h2, h3]

theorem cacheGet_eq (st : CacheState) (now : Nat) (key : String) (e : Bool) :
    cacheGet st now key e =
      if st.redisAvailable && !e then
        match lookupLive st.redisStore now key with
        | some v => v
        | none => localGetOrNull st.localStore now key
      else localGetOrNull st.localStore now key := by
  cases h1 : st.redisAvailable <;> cases h2 : e <;>
    cases h3 : lookupLive st.redisStore now key <;>
      simp [cacheGet, cacheGetE, h1, h2, h3]

theorem cacheSetE_ok (st : CacheState) (now : Nat) (key : String) (v : JVal)
    (ttlSec : Option Nat) (defaultTtl : Nat) (e : Bool) :
    cacheSetE st now key v ttlSec defaultTtl e =
      Except.ok (cacheSetSt st now key v ttlSec defaultTtl e) := by
  cases h1 : st.redisAvailable <;> cases h2 : e <;> simp [cacheSetE, h1, h2]

theorem cacheDelE_ok (st : CacheState) (key : String) (e : Bool) :
    cacheDelE st key e = Except.ok (cacheDelSt st key e) := by
  cases h1 : st.redisAvailable <;> cases h2 : e <;> simp [cacheDelE, h1, h2]

theorem cacheFlushE_ok (st : CacheState) (e : Bool) :
    cacheFlushE st e = Except.ok (cacheFlushSt st e) := by
  cases h1 : st.redisAvailable <;> cases h2 : e <;> simp [cacheFlushE, h1, h2]

/-- C7: when the external shared store is unavailable or any external-store
call throws, the four cache operations still complete correctly using only
the local in-process store and never propagate an exception: each operation's
run is an ok result for every throw behavior of the external store, and with
every external call throwing, a set is observable by a get, a delete removes
the key, and a flush empties the cache. -/
theorem cache_degradation_local_only
    (st : CacheState) (now t0 : Nat) (key : String) (v : JVal)
    (ttl defaultTtl : Nat) (e : Bool)
    (httl : now < t0 + ttl) :
    cacheGetE st now key e = Except.ok (cacheGet st now key e) ∧
    cacheSetE st t0 key v (some ttl) defaultTtl e =
      Except.ok (cacheSetSt st t0 key v (some ttl) defaultTtl e) ∧
    cacheDelE st key e = Except.ok (cacheDelSt st key e) ∧
    cacheFlushE st e = Except.ok (cacheFlushSt st e) ∧
    cacheGet (cacheSetSt st t0 key v (some ttl) defaultTtl true) now key true = v ∧
    cacheGet (cacheDelSt st key true) now key true = JVal.jnull ∧
    cacheGet (cacheFlushSt st true) now key true = JVal.jnull := by
  refine ⟨cacheGetE_ok st now key e, cacheSetE_ok st t0 key v (some ttl) defaultTtl e,
    cacheDelE_ok st key e, cacheFlushE_ok st e, ?_, ?_, ?_⟩
  · simp [cacheGet_eq, cacheSetSt, localGetOrNull, lookupLive_putKey_self, httl]
  · simp [cacheGet_eq, cacheDelSt, localGetOrNull, lookupLive_eraseKey_self]
  · simp [cacheGet_eq, cacheFlushSt, localGetOrNull, lookupLive]

/-- C7 witness: instantiation at a concrete state, key and value, with the
time-within-TTL hypothesis discharged concretely. -/
theorem cache_degradation_local_only_witness :
    (10 < 0 + 30) ∧
    cacheGet (cacheSetSt (initialCache true) 0 "k" (JVal.jnum 7) (some 30) 60 true)
      10 "k" true = JVal.jnum 7 := by
  refine ⟨by decide, ?_⟩
  exact (cache_degradation_local_only (initialCache true) 10 0 "k" (JVal.jnum 7)
    30 60 true (by decide)).2.2.2.2.1

theorem cacheGet_setSt_other (st : CacheState) (t1 t : Nat) (key key2 : String)
    (w : JVal) (ttlSec : Option Nat) (d : Nat) (e2 eG : Bool) (hk : key ≠ key2) :
    cacheGet (cacheSetSt st t1 key2 w ttlSec d e2) t key eG = cacheGet st t key eG := by
  have h2 : lookupLive (cacheSetSt st t1 key2 w ttlSec d e2).redisStore t key =
      lookupLive st.redisStore t key := by
    simp only [cacheSetSt]
    split_ifs with h
    · exact lookupLive_putKey_other _ _ _ _ _ _ hk
    · rfl
  have h3 : localGetOrNull (cacheSetSt st t1 key2 w ttlSec d e2).localStore t key =
      localGetOrNull st.localStore t key := by
    simp only [cacheSetSt, localGetOrNull]
    rw [lookupLive_putKey_other _ _ _ _ _ _ hk]
  rw [cacheGet_eq, cacheGet_eq, h2, h3]
  rfl

theorem cacheGet_delSt_other (st : CacheState) (t : Nat) (key key2 : String)
    (eD eG : Bool) (hk : key ≠ key2) :
    cacheGet (cacheDelSt st key2 eD) t key eG = cacheGet st t key eG := by
  have h2 : lookupLive (cacheDelSt st key2 eD).redisStore t key =
      lookupLive st.redisStore t key := by
    simp only [cacheDelSt]
    split_ifs with h
    · exact lookupLive_eraseKey_other _ _ _ _ hk
    · rfl
  have h3 : localGetOrNull (cacheDelSt st key2 eD).localStore t key =
      localGetOrNull st.localStore t key := by
    simp only [cacheDelSt, localGetOrNull]
    rw [lookupLive_eraseKey_other _ _ _ _ hk]
  rw [cacheGet_eq, cacheGet_eq, h2, h3]
  rfl

theorem cacheGet_after_set (st : CacheState) (t0 t : Nat) (key : String) (v : JVal)
    (ttl defaultTtl : Nat) (eS eG : Bool)
    (hfresh : t < t0 + ttl)
    (hcons : st.redisAvailable = true → eS = true → eG = false →
      lookupLive st.redisStore t key = none) :
    cacheGet (cacheSetSt st t0 key v (some ttl) defaultTtl eS) t key eG = v := by
  rw [cacheGet_eq]
  cases hA : st.redisAvailable with
  | false => simp [cacheSetSt, localGetOrNull, lookupLive_putKey_self, hfresh, hA]
  | true =>
    cases heG : eG with
    | true => simp [cacheSetSt, localGetOrNull, lookupLive_putKey_self, hfresh, hA]
    | false =>
      cases heS : eS with
      | false => simp [cacheSetSt, hA, lookupLive_putKey_self, hfresh]
      | true =>
        have hn := hcons hA heS heG
        simp [cacheSetSt, hA, hn, localGetOrNull, lookupLive_putKey_self, hfresh]

/-- C8 counterexample: from a reachable state whose external store still
holds an unexpired older value for the key, a set whose external write throws
(so only the local store is updated) followed by a get whose external read
succeeds returns the stale older value, not the value just set. -/
theorem cache_set_get_counterexample :
    cacheGet (cacheSetSt
      { redisAvailable := true,
        redisStore := [("k", JVal.jstr "old", 1000)],
        localStore := [] }
      10 "k" (JVal.jstr "new") (some 50) 60 true) 20 "k" false = JVal.jstr "old" ∧
    JVal.jstr "old" ≠ JVal.jstr "new" := by
  decide

/-- C8 amended: set(K, V, ttl) followed by get(K) with no intervening
operation returns V, and keeps returning V until the TTL elapses, with
operations on other keys not interfering — provided the external store is
engaged consistently: when the external write of the set threw while the
external read of the get succeeds, the external store must not hold an
unexpired stale entry for K (in particular the property holds whenever the
external store is disconnected, throws on every call, or accepted the
write). -/
theorem cache_set_get_roundtrip
    (st : CacheState) (t0 t t1 : Nat) (key key2 : String) (v w : JVal)
    (ttl ttl2 defaultTtl : Nat) (eS eG eS2 eD : Bool)
    (hfresh : t < t0 + ttl)
    (hcons : st.redisAvailable = true → eS = true → eG = false →
      lookupLive st.redisStore t key = none)
    (hk2 : key ≠ key2) :
    cacheGet (cacheSetSt st t0 key v (some ttl) defaultTtl eS) t key eG = v ∧
    cacheGet (cacheSetSt (cacheSetSt st t0 key v (some ttl) defaultTtl eS)
      t1 key2 w (some ttl2) defaultTtl eS2) t key eG = v ∧
    cacheGet (cacheDelSt (cacheSetSt st t0 key v (some ttl) defaultTtl eS) key2 eD)
      t key eG = v := by
  refine ⟨cacheGet_after_set st t0 t key v ttl defaultTtl eS eG hfresh hcons, ?_, ?_⟩
  · rw [cacheGet_setSt_other _ _ _ _ _ _ _ _ _ _ hk2]
    exact cacheGet_after_set st t0 t key v ttl defaultTtl eS eG hfresh hcons
  · rw [cacheGet_delSt_other _ _ _ _ _ _ hk2]
    exact cacheGet_after_set st t0 t key v ttl defaultTtl eS eG hfresh hcons

/-- C8 witness: concrete instantiation with the external write succeeding;
the freshness and consistency hypotheses are discharged concretely. -/
theorem cache_set_get_roundtrip_witness :
    (10 < 0 + 30) ∧ ("a" : String) ≠ "b" ∧
    cacheGet (cacheSetSt (initialCache true) 0 "a" (JVal.jnum 1) (some 30) 60 false)
      10 "a" false = JVal.jnum 1 := by
  refine ⟨by decide, by decide, ?_⟩
  exact (cache_set_get_roundtrip (initialCache true) 0 10 5 "a" "b" (JVal.jnum 1)
    (JVal.jnum 2) 30 30 60 false false false false (by decide)
    (by intro _ h _; exact absurd h (by decide)) (by decide)).1

theorem localGetOrNull_putKey_jnull (store : Store) (t : Nat) (key : String) (e : Nat) :
    localGetOrNull (putKey store key JVal.jnull e) t key = JVal.jnull := by
  by_cases ht : t < e <;> simp [localGetOrNull, lookupLive_putKey_self, ht]

/-- C10 counterexample: with a stale unexpired external entry for the key and
an external write that throws during the set, get after set(K, null) returns
the stale value rather than the absent signal, so the claim as stated fails
on such states. -/
theorem cache_null_miss_counterexample :
    cacheGet (cacheSetSt
      { redisAvailable := true,
        redisStore := [("k", JVal.jstr "w", 1000)],
        localStore := [] }
      10 "k" JVal.jnull (some 50) 60 true) 20 "k" false = JVal.jstr "w" ∧
    JVal.jstr "w" ≠ JVal.jnull := by
  decide

/-- C10 amended: a stored null is indistinguishable from a cache miss —
after set(K, null, ttl), get(K) returns the same null signal a never-set key
yields, at any time and for any throw behavior, provided the external store
holds no unexpired stale entry for K when the set's external write threw and
the get's external read succeeds. -/
theorem cache_null_indistinguishable
    (st : CacheState) (t0 t : Nat) (key k2 : String) (ttl defaultTtl : Nat)
    (eS eG e2 : Bool)
    (hcons : st.redisAvailable = true → eS = true → eG = false →
      lookupLive st.redisStore t key = none)
    (hmiss1 : st.redisStore.lookup k2 = none)
    (hmiss2 : st.localStore.lookup k2 = none) :
    cacheGet (cacheSetSt st t0 key JVal.jnull (some ttl) defaultTtl eS) t key eG =
      JVal.jnull ∧
    cacheGet st t k2 e2 = JVal.jnull := by
  constructor
  · rw [cacheGet_eq]
    cases hA : st.redisAvailable with
    | false => simp [cacheSetSt, localGetOrNull_putKey_jnull, hA]
    | true =>
      cases heG : eG with
      | true => simp [cacheSetSt, localGetOrNull_putKey_jnull, hA]
      | false =>
        cases heS : eS with
        | false =>
          by_cases ht : t < t0 + ttl <;>
            simp [cacheSetSt, hA, lookupLive_putKey_self, ht, localGetOrNull_putKey_jnull]
        | true =>
          have hn := hcons hA heS heG
          simp [cacheSetSt, hA, hn, localGetOrNull_putKey_jnull]
  · rw [cacheGet_eq]
    have h1 : lookupLive st.redisStore t k2 = none := by simp [lookupLive, hmiss1]
    have h2 : localGetOrNull st.localStore t k2 = JVal.jnull := by
      simp [localGetOrNull, lookupLive, hmiss2]
    cases hA : st.redisAvailable <;> cases he2 : e2 <;> simp [hA, he2, h1, h2]

/-- C10 witness: concrete instantiation on the empty initial cache, all
hypotheses discharged concretely. -/
theorem cache_null_indistinguishable_witness :
    cacheGet (cacheSetSt (initialCache true) 0 "k" JVal.jnull (some 30) 60 false)
      10 "k" false = JVal.jnull ∧
    cacheGet (initialCache true) 10 "other" false = JVal.jnull := by
  exact cache_null_indistinguishable (initialCache true) 0 10 "k" "other" 30 60
    false false false (by intro _ h _; exact absurd h (by decide)) (by decide) (by decide)

theorem refillBucket_instant (N m t0 : ℚ) (hmN : m ≤ N) :
    refillBucket N { tokens := m, lastRefill := t0 } t0 =
      { tokens := m, lastRefill := t0 } := by
  simp [refillBucket, REFILL_RATE, TokenBucket.mk.injEq]
  exact hmN

theorem rateLimitStep_instant_admit (N m t0 : ℚ) (h1 : 1 ≤ m) (hmN : m ≤ N) :
    rateLimitStep N { tokens := m, lastRefill := t0 } t0 =
      (true, { tokens := m - 1, lastRefill := t0 }) := by
  simp [rateLimitStep, refillBucket_instant N m t0 hmN, h1]

theorem rateLimitStep_instant_reject (N m t0 : ℚ) (h1 : m < 1) (hmN : m ≤ N) :
    rateLimitStep N { tokens := m, lastRefill := t0 } t0 =
      (false, { tokens := m, lastRefill := t0 }) := by
  simp [rateLimitStep, refillBucket_instant N m t0 hmN, not_le.mpr h1]

theorem instantChecksCount_countdown (N t0 : ℚ) :
    ∀ (k : Nat) (m : ℚ), (k : ℚ) ≤ m → m ≤ N →
      instantChecksCount N t0 k { tokens := m, lastRefill := t0 } =
        (k, { tokens := m - k, lastRefill := t0 }) := by
  intro k
  induction k with
  | zero => intro m h1 h2; simp [instantChecksCount]
  | succ k ih =>
    intro m h1 h2
    have hk0 : (0:ℚ) ≤ (k:ℚ) := Nat.cast_nonneg k
    have hcast : ((k:ℚ) + 1) ≤ m := by
      have := h1
      push_cast at this
      linarith
    have hk1 : (1:ℚ) ≤ m := by linarith
    have hstep := rateLimitStep_instant_admit N m t0 hk1 h2
    have hrest := ih (m - 1) (by linarith) (by linarith)
    simp [instantChecksCount, hstep, hrest, TokenBucket.mk.injEq]
    constructor
    · omega
    · ring_nf

theorem rateLimitStep_tokens_le (N : ℚ) (b : TokenBucket) (now : ℚ) :
    ((rateLimitStep N b now).2).tokens ≤ N := by
  simp only [rateLimitStep, refillBucket]
  split_ifs with h
  · have := min_le_left N (b.tokens + (now - b.lastRefill) / 1000 * REFILL_RATE N)
    simp only
    linarith
  · exact min_le_left N (b.tokens + (now - b.lastRefill) / 1000 * REFILL_RATE N)

theorem runChecks_tokens_le (N : ℚ) :
    ∀ (ts : List ℚ) (b : TokenBucket), b.tokens ≤ N →
      (runChecks N b ts).tokens ≤ N := by
  intro ts
  induction ts with
  | nil => intro b hb; simpa [runChecks] using hb
  | cons t ts ih =>
    intro b hb
    simp only [runChecks, List.foldl]
    exact ih ((rateLimitStep N b t).2) (rateLimitStep_tokens_le N b t)

/-- C6: from a full bucket of N tokens, N admission checks with no elapsed
time are all admitted and leave the bucket with zero tokens, hence fewer than
one; after 1/R seconds elapse (R = N/60 tokens per second, i.e. 1000·(60/N)
milliseconds), exactly one further request is admitted — the next immediate
check is rejected; and the token count never exceeds N after any sequence of
admission checks, each of which refills the bucket. -/
theorem token_bucket_conservation (N : ℕ) (hN : 1 ≤ N) (t0 : ℚ) (b : TokenBucket)
    (hb : b.tokens ≤ (N : ℚ)) (ts : List ℚ) :
    instantChecksCount (N : ℚ) t0 N (freshBucket (N : ℚ) t0) =
      (N, { tokens := 0, lastRefill := t0 }) ∧
    (instantChecksCount (N : ℚ) t0 N (freshBucket (N : ℚ) t0)).2.tokens < 1 ∧
    (rateLimitStep (N : ℚ) { tokens := 0, lastRefill := t0 }
      (t0 + 1000 * (60 / (N : ℚ)))).1 = true ∧
    (rateLimitStep (N : ℚ)
      (rateLimitStep (N : ℚ) { tokens := 0, lastRefill := t0 }
        (t0 + 1000 * (60 / (N : ℚ)))).2
      (t0 + 1000 * (60 / (N : ℚ)))).1 = false ∧
    (runChecks (N : ℚ) b ts).tokens ≤ (N : ℚ) := by
  have hNpos : (0:ℚ) < (N : ℚ) := by exact_mod_cast Nat.lt_of_lt_of_le Nat.zero_lt_one hN
  have hN1 : (1:ℚ) ≤ (N : ℚ) := by exact_mod_cast hN
  have hcount : instantChecksCount (N : ℚ) t0 N (freshBucket (N : ℚ) t0) =
      (N, { tokens := 0, lastRefill := t0 }) := by
    have := instantChecksCount_countdown (N : ℚ) t0 N (N : ℚ) le_rfl le_rfl
    simpa [freshBucket] using this
  have hrefill2 : refillBucket (N : ℚ) { tokens := 0, lastRefill := t0 }
      (t0 + 1000 * (60 / (N : ℚ))) =
      { tokens := 1, lastRefill := t0 + 1000 * (60 / (N : ℚ)) } := by
    have harith : (0:ℚ) + (t0 + 1000 * (60 / (N : ℚ)) - t0) / 1000 *
        ((N : ℚ) / (60000 / 1000)) = 1 := by
      field_simp
      ring
    simp only [refillBucket, REFILL_RATE, TokenBucket.mk.injEq]
    rw [harith]
    exact ⟨min_eq_right hN1, trivial⟩
  have hstep2 : rateLimitStep (N : ℚ) { tokens := 0, lastRefill := t0 }
      (t0 + 1000 * (60 / (N : ℚ))) =
      (true, { tokens := 0, lastRefill := t0 + 1000 * (60 / (N : ℚ)) }) := by
    simp [rateLimitStep, hrefill2]
  refine ⟨hcount, ?_, ?_, ?_, runChecks_tokens_le (N : ℚ) ts b hb⟩
  · rw [hcount]
    norm_num
  · rw [hstep2]
  · rw [hstep2]
    have := rateLimitStep_instant_reject (N : ℚ) 0
      (t0 + 1000 * (60 / (N : ℚ))) (by norm_num) (le_of_lt hNpos)
    rw [this]

/-- C6 witness: instantiation at N = 2 and a concrete two-check schedule; the
positivity and initial-bound hypotheses are discharged concretely. -/
theorem token_bucket_conservation_witness :
    (1 ≤ 2) ∧ (freshBucket ((2:ℕ) : ℚ) 0).tokens ≤ ((2:ℕ) : ℚ) ∧
    (runChecks ((2:ℕ) : ℚ) (freshBucket ((2:ℕ) : ℚ) 0) [0, 500]).tokens ≤ ((2:ℕ) : ℚ) := by
  refine ⟨by norm_num, by norm_num [freshBucket], ?_⟩
  exact (token_bucket_conservation 2 (by norm_num) 0 (freshBucket ((2:ℕ) : ℚ) 0)
    (by norm_num [freshBucket]) [0, 500]).2.2.2.2

/-- C9: for every upstream call, an envelope with status "0" whose message is
outside the fixed allow-list of benign empty-result messages raises the api
error carrying that message; a message inside the allow-list raises no status
error and the result proceeds to the operation-specific schema validation. -/
theorem envelope_status_allowlist {ρ T : Type} (schema : ρ → Option T)
    (status message : String) (result : ρ) :
    (status = "0" → message ∉ NO_ERROR_MESSAGES →
      makeRequest (UpstreamResp.envelope status message result) schema =
        Except.error (EthErr.apiError message)) ∧
    (message ∈ NO_ERROR_MESSAGES →
      makeRequest (UpstreamResp.envelope status message result) schema =
        (match schema result with
          | some t => Except.ok t
          | none => Except.error EthErr.invalidResultFormat)) := by
  constructor
  · intro h1 h2
    simp [makeRequest, h1, h2]
  · intro h
    simp [makeRequest, h]

/-- C9 witness: a non-benign message with status "0" raises the api error; a
benign one proceeds to the schema, here accepting the result. -/
theorem envelope_status_allowlist_witness :
    ("Invalid API Key" ∉ NO_ERROR_MESSAGES) ∧
    makeRequest (UpstreamResp.envelope "0" "Invalid API Key" (3 : Nat)) some =
      Except.error (EthErr.apiError "Invalid API Key") ∧
    ("No records found" ∈ NO_ERROR_MESSAGES) ∧
    makeRequest (UpstreamResp.envelope "0" "No records found" (3 : Nat)) some =
      Except.ok 3 := by
  refine ⟨by decide, ?_, by decide, ?_⟩
  · exact (envelope_status_allowlist some "0" "Invalid API Key" 3).1 rfl (by decide)
  · have h := (envelope_status_allowlist some "0" "No records found" (3 : Nat)).2 (by decide)
    simpa using h

/-- C3 counterexample: a transaction with a non-null block number whose
execution-status isError is neither "0" nor "1" yields an absent status, not
the fail status the claim requires for the otherwise branch. -/
theorem txStatus_else_fail_counterexample :
    (normalizeTx
      { hash := "0xh", blockNumber := some "0x1", fromAddr := "0xa",
        toAddr := some "0xb", value := "0x0", input := "0x" }
      none
      { isError := "2", errDescription := none }).status = none ∧
    (normalizeTx
      { hash := "0xh", blockNumber := some "0x1", fromAddr := "0xa",
        toAddr := some "0xb", value := "0x0", input := "0x" }
      none
      { isError := "2", errDescription := none }).status ≠ some TxStatus.fail := by
  decide

/-- C3 amended: the returned status is pending when the block number is null
regardless of the execution status, success when the block number is present
and isError is "0", fail when it is present and isError is "1", and absent
for any other isError value. -/
theorem txStatus_derivation (t : TxData) (r : Option ReceiptData) (s : TxStatusData) :
    (t.blockNumber = none → (normalizeTx t r s).status = some TxStatus.pending) ∧
    (t.blockNumber ≠ none → s.isError = "0" →
      (normalizeTx t r s).status = some TxStatus.success) ∧
    (t.blockNumber ≠ none → s.isError = "1" →
      (normalizeTx t r s).status = some TxStatus.fail) ∧
    (t.blockNumber ≠ none → s.isError ≠ "0" → s.isError ≠ "1" →
      (normalizeTx t r s).status = none) := by
  refine ⟨?_, ?_, ?_, ?_⟩ <;> intros <;> simp [normalizeTx, *]

/-- C3 witness: the three reachable branches at concrete inputs. -/
theorem txStatus_derivation_witness :
    ((some "0x1" : Option String) ≠ none) ∧ ("0" : String) = "0" ∧
    (normalizeTx
      { hash := "h", blockNumber := some "0x1", fromAddr := "a",
        toAddr := none, value := "0", input := "0x" }
      none
      { isError := "0", errDescription := none }).status = some TxStatus.success := by
  refine ⟨by decide, rfl, ?_⟩
  exact (txStatus_derivation
    { hash := "h", blockNumber := some "0x1", fromAddr := "a",
      toAddr := none, value := "0", input := "0x" }
    none
    { isError := "0", errDescription := none }).2.1 (by decide) rfl

/-- C4: the three-call aggregation of getTxDetails joins on all three
sub-calls: the result is ok exactly when all three are ok; any sub-call
failure makes the whole operation fail with no partial result; and when all
succeed the receipt field of the DTO is present exactly when the receipt call
returned a non-null receipt. -/
theorem getTxDetails_join_all_or_nothing (tx : Except EthErr TxData)
    (rc : Except EthErr (Option ReceiptData)) (stt : Except EthErr TxStatusData) :
    ((getTxDetails tx rc stt).isOk = true ↔
      (tx.isOk = true ∧ rc.isOk = true ∧ stt.isOk = true)) ∧
    (∀ e, tx = Except.error e → getTxDetails tx rc stt = Except.error e) ∧
    (∀ t e, tx = Except.ok t → rc = Except.error e →
      getTxDetails tx rc stt = Except.error e) ∧
    (∀ t r e, tx = Except.ok t → rc = Except.ok r → stt = Except.error e →
      getTxDetails tx rc stt = Except.error e) ∧
    (∀ t r s, tx = Except.ok t → rc = Except.ok r → stt = Except.ok s →
      getTxDetails tx rc stt = Except.ok (normalizeTx t r s) ∧
      (normalizeTx t r s).receipt.isSome = r.isSome) := by
  cases tx <;> cases rc <;> cases stt <;>
    simp [getTxDetails, Except.isOk, Except.toBool, normalizeTx, bind, Except.bind,
      pure, Except.pure]

/-- C4 witness: all three sub-calls succeed with a non-null receipt; the DTO
is produced and carries the receipt. -/
theorem getTxDetails_join_all_or_nothing_witness :
    getTxDetails
      (Except.ok { hash := "h", blockNumber := some "0x1", fromAddr := "a",
                   toAddr := none, value := "0", input := "0x" })
      (Except.ok (some { gasUsed := some "0x5208", effectiveGasPrice := none,
                         logs := none }))
      (Except.ok { isError := "0", errDescription := none }) =
      Except.ok (normalizeTx
        { hash := "h", blockNumber := some "0x1", fromAddr := "a",
          toAddr := none, value := "0", input := "0x" }
        (some { gasUsed := some "0x5208", effectiveGasPrice := none, logs := none })
        { isError := "0", errDescription := none }) ∧
    (normalizeTx
      { hash := "h", blockNumber := some "0x1", fromAddr := "a",
        toAddr := none, value := "0", input := "0x" }
      (some { gasUsed := some "0x5208", effectiveGasPrice := none, logs := none })
      { isError := "0", errDescription := none }).receipt.isSome =
      (some { gasUsed := some "0x5208", effectiveGasPrice := none,
              logs := none } : Option ReceiptData).isSome := by
  exact (getTxDetails_join_all_or_nothing _ _ _).2.2.2.2 _ _ _ rfl rfl rfl

/-- C5 counterexample: a row whose block-number string has no parseable
integer normalizes successfully — the operation returns ok with the field set
to NaN rather than failing — and a string with a numeric prefix silently
truncates to that prefix. -/
theorem transfer_normalization_counterexample :
    getTokenTransfersPure (UpstreamResp.envelope "1" "OK"
      [{ blockNumber := "abc", timeStamp := "1609459200", hash := "0xh",
         fromAddr := "0xa", toAddr := "0xb", contractAddress := "0xc",
         value := "1000", tokenName := none, tokenSymbol := none,
         tokenDecimal := none }]) =
      Except.ok
        [{ hash := "0xh", blockNumber := none, timeStamp := some 1609459200,
           fromAddr := "0xa", toAddr := "0xb", contractAddress := "0xc",
           valueRaw := "1000", tokenSymbol := none, tokenName := none,
           tokenDecimal := none }] ∧
    parseIntJS 10 "abc" = none ∧
    parseIntJS 10 "123abc" = some 123 := by
  refine ⟨rfl, by decide, by decide⟩

/-- C5 amended: normalization of transfer rows is total — an envelope with a
success status always yields the mapped DTO list, a row whose block-number
string parses to NaN yields a DTO whose blockNumber is NaN (never zero and
never an error), following JS parseInt semantics which also truncate a
numeric prefix. -/
theorem transfer_normalization_total (status message : String)
    (rows : List RawTransfer) (row : RawTransfer)
    (hst : status ≠ "0")
    (hrow : parseIntJS 10 row.blockNumber = none) :
    getTokenTransfersPure (UpstreamResp.envelope status message rows) =
      Except.ok (rows.map normalizeTransfer) ∧
    (normalizeTransfer row).blockNumber = none ∧
    (normalizeTransfer row).blockNumber ≠ some 0 := by
  refine ⟨?_, ?_, ?_⟩
  · simp [getTokenTransfersPure, makeRequest, hst, Except.map]
  · simp [normalizeTransfer, hrow]
  · simp [normalizeTransfer, hrow]

/-- C5 witness: concrete instantiation with the non-"0" status and the
unparseable block number discharged concretely. -/
theorem transfer_normalization_total_witness :
    (("1" : String) ≠ "0") ∧
    parseIntJS 10 "abc" = none ∧
    (normalizeTransfer
      { blockNumber := "abc", timeStamp := "7", hash := "h", fromAddr := "a",
        toAddr := "b", contractAddress := "c", value := "1", tokenName := none,
        tokenSymbol := none, tokenDecimal := none }).blockNumber = none := by
  refine ⟨by decide, by decide, ?_⟩
  exact (transfer_normalization_total "1" "OK" []
    { blockNumber := "abc", timeStamp := "7", hash := "h", fromAddr := "a",
      toAddr := "b", contractAddress := "c", value := "1", tokenName := none,
      tokenSymbol := none, tokenDecimal := none }
    (by decide) (by decide)).2.1

/-- C2: an HTTP 402 or 403 response, or a status-"0" envelope whose message
indicates a plan/feature restriction, raises the featureUnavailable error, a
kind distinct from every generic upstream error so callers can distinguish
the two by the kind alone. -/
theorem featureUnavailable_classification {ρ T : Type} (schema : ρ → Option T)
    (code : Nat) (status message : String) (result : ρ) :
    ((code = 402 ∨ code = 403) →
      makeRequestFU (UpstreamOutcome.httpError code) schema =
        Except.error (ClientError.featureUnavailable "Feature not available")) ∧
    (status = "0" → planRestricted message = true →
      makeRequestFU (UpstreamOutcome.body (UpstreamResp.envelope status message result))
        schema = Except.error (ClientError.featureUnavailable message)) ∧
    (∀ (m : String) (f : UpstreamFailure),
      ClientError.featureUnavailable m ≠ ClientError.upstream f) := by
  refine ⟨?_, ?_, ?_⟩
  · intro h
    simp [makeRequestFU, h]
  · intro h1 h2
    simp [makeRequestFU, h1, h2]
  · intro m f h
    cases h

/-- C2 witness: the 402 response and the plan-restriction envelope observed
in the client's tests, with the hypotheses discharged concretely. -/
theorem featureUnavailable_classification_witness :
    ((402 = 402 ∨ 402 = 403)) ∧
    makeRequestFU (UpstreamOutcome.httpError 402) (some : Nat → Option Nat) =
      Except.error (ClientError.featureUnavailable "Feature not available") ∧
    planRestricted "This feature is not available for your plan" = true ∧
    makeRequestFU (UpstreamOutcome.body (UpstreamResp.envelope "0"
        "This feature is not available for your plan" (0 : Nat)))
      (some : Nat → Option Nat) =
      Except.error (ClientError.featureUnavailable
        "This feature is not available for your plan") := by
  refine ⟨Or.inl rfl, ?_, by decide, ?_⟩
  · exact (featureUnavailable_classification (some : Nat → Option Nat) 402 "0" "x"
      (0 : Nat)).1 (Or.inl rfl)
  · exact (featureUnavailable_classification (some : Nat → Option Nat) 402 "0"
      "This feature is not available for your plan" (0 : Nat)).2.1 rfl (by decide)

/-- C1: when the primary top-holders action fails with a fallback-eligible
signature the secondary action is invoked exactly once with equivalent
parameters and its normalized result is returned; when it fails with any
other kind — the plan-restriction featureUnavailable included — the secondary
action is never invoked and the error is surfaced immediately. HTTP 404 and
an invalid-action envelope message are fallback-eligible, featureUnavailable
is not. -/
theorem topHolders_fallback_resolution {ρ T : Type}
    (upstream : String → UpstreamOutcome ρ) (schema : ρ → Option T)
    (e : ClientError)
    (hp : makeRequestFU (upstream PRIMARY_HOLDERS_ACTION) schema = Except.error e) :
    (shouldFallback e = true →
      getTopTokenHoldersResolved upstream schema =
        (makeRequestFU (upstream SECONDARY_HOLDERS_ACTION) schema,
          [PRIMARY_HOLDERS_ACTION, SECONDARY_HOLDERS_ACTION])) ∧
    (shouldFallback e = false →
      getTopTokenHoldersResolved upstream schema =
        (Except.error e, [PRIMARY_HOLDERS_ACTION])) ∧
    shouldFallback (ClientError.upstream (UpstreamFailure.http 404)) = true ∧
    (∀ m, invalidActionMessage m = true →
      shouldFallback (ClientError.upstream (UpstreamFailure.apiError m)) = true) ∧
    (∀ m, shouldFallback (ClientError.featureUnavailable m) = false) := by
  refine ⟨?_, ?_, by decide, ?_, ?_⟩
  · intro h
    simp [getTopTokenHoldersResolved, hp, h]
  · intro h
    simp [getTopTokenHoldersResolved, hp, h]
  · intro m hm
    simp [shouldFallback, hm]
  · intro m
    simp [shouldFallback]

/-- C1 witness: an upstream that returns 404 for the primary action name and
a success envelope for the secondary; the resolver invokes both actions in
order and returns the secondary's result. -/
theorem topHolders_fallback_resolution_witness :
    makeRequestFU ((fun a => if a = "tokenholderlist" then UpstreamOutcome.httpError 404
        else UpstreamOutcome.body (UpstreamResp.envelope "1" "OK" (5 : Nat)))
        PRIMARY_HOLDERS_ACTION) some =
      Except.error (ClientError.upstream (UpstreamFailure.http 404)) ∧
    shouldFallback (ClientError.upstream (UpstreamFailure.http 404)) = true ∧
    getTopTokenHoldersResolved
      (fun a => if a = "tokenholderlist" then UpstreamOutcome.httpError 404
        else UpstreamOutcome.body (UpstreamResp.envelope "1" "OK" (5 : Nat)))
      some =
      (Except.ok 5, ["tokenholderlist", "topholders"]) := by
  refine ⟨by decide, by decide, ?_⟩
  have h := (topHolders_fallback_resolution
    (fun a => if a = "tokenholderlist" then UpstreamOutcome.httpError 404
      else UpstreamOutcome.body (UpstreamResp.envelope "1" "OK" (5 : Nat)))
    some (ClientError.upstream (UpstreamFailure.http 404)) (by decide)).1 (by decide)
  rw [h]
  decide
